import Mathlib

/- Formal model of the bot task handlers in `bioconda_utils/bot/tasks.py`.

   This is a pure-data shallow embedding: every external effect (GitHub API,
   CircleCI artifact listing, uploads, filesystem, celery scheduling) is an
   oracle value supplied through an environment structure, and each handler
   is a total function from its environment to an outcome together with an
   effect trace.  All line references are to
   `src/bioconda_utils/bot/tasks.py`. -/

/-! ## Artifact regular expressions (lines 36-39)

`PACKAGE_RE = re.compile(r"(.*packages)/({})/(.+\.tar\.bz2)$".format(...))`
with the alternation built from `Arch = Enum('Arch', 'osx-64 linux-64 noarch')`,
and `IMAGE_RE = re.compile(r".*images/(.+)(?::|%3A)(.+)\.tar\.gz$")`.

The matchers below implement Python `re.match` semantics for these two
patterns on `List Char`: matching is anchored at the start, `$` matches at
the end of the string or just before one trailing newline, `.` matches any
character except a newline, `.*`/`.+` are greedy with backtracking, and the
alternations are tried left to right. -/

/-- Members of `Arch = Enum('Arch', 'osx-64 linux-64 noarch')`, in the order
they appear in the alternation of `PACKAGE_RE` (line 38). -/
def archNames : List String := ["osx-64", "linux-64", "noarch"]

/-- Suffix test used for the literal tails `\.tar\.bz2` and `\.tar\.gz`. -/
def endsWithL (s suf : List Char) : Bool := suf.isSuffixOf s

/-- Model of `$` and `.`: `$` also matches just before a single trailing
newline, and since every other character of these patterns is consumed by a
`.`-class or a newline-free literal, a match exists only if the remaining
core contains no newline. -/
def reCore (s : List Char) : Option (List Char) :=
  let core := if s.getLast? = some '\n' then s.dropLast else s
  if core.contains '\n' then none else some core

/-- Tail of `PACKAGE_RE` after the first group: `/(osx-64|linux-64|noarch)/`
followed by the group `(.+\.tar\.bz2)` (which must reach the end of the
core). Returns the captured `(arch, fname)`. -/
def pkgTail (r : List Char) : Option (List Char × List Char) :=
  match r with
  | '/' :: r2 =>
    archNames.findSome? (fun arch =>
      let ad := arch.data
      if r2.take ad.length = ad then
        match r2.drop ad.length with
        | '/' :: fname =>
          if 9 ≤ fname.length ∧ endsWithL fname ".tar.bz2".data = true then
            some (ad, fname)
          else none
        | _ => none
      else none)
  | _ => none

/-- Full `PACKAGE_RE` match on the newline-free core: the group
`(.*packages)` is greedy, so the longest prefix ending in the literal
`packages` whose remainder matches `pkgTail` wins; smaller prefixes are the
backtracking alternatives. Returns the groups `(repo_url, arch, fname)`. -/
def packageMatchCore (s : List Char) : Option (List Char × List Char × List Char) :=
  (List.range (s.length + 1)).reverse.findSome? (fun i =>
    let g1 := s.take i
    if endsWithL g1 "packages".data = true then
      match pkgTail (s.drop i) with
      | some (arch, fname) => some (g1, arch, fname)
      | none => none
    else none)

/-- `PACKAGE_RE.match(url)` returning the three captured groups. -/
def packageMatch (url : String) : Option (String × String × String) :=
  match reCore url.data with
  | none => none
  | some core =>
    match packageMatchCore core with
    | some (g1, arch, fname) => some (String.mk g1, String.mk arch, String.mk fname)
    | none => none

/-- Tail group `(.+)\.tar\.gz$` of `IMAGE_RE`: captures everything before
the literal suffix, which must be nonempty. -/
def imgTag (t : List Char) : Option (List Char) :=
  if 8 ≤ t.length ∧ endsWithL t ".tar.gz".data = true then
    some (t.take (t.length - 7))
  else none

/-- `(.+)(?::|%3A)(.+)\.tar\.gz$`: the name group `(.+)` is greedy, so the
largest split point whose separator and tag tail match wins; the separator
alternation tries `:` before `%3A`. Returns `(name, tag)`. -/
def imgTail (r : List Char) : Option (List Char × List Char) :=
  (List.range (r.length + 1)).reverse.findSome? (fun k =>
    if k = 0 then none
    else
      let name := r.take k
      let sep : Option (List Char) :=
        match r.drop k with
        | ':' :: t => some t
        | '%' :: '3' :: 'A' :: t => some t
        | _ => none
      match sep with
      | some t => (imgTag t).map (fun tag => (name, tag))
      | none => none)

/-- Full `IMAGE_RE` match on the newline-free core: the leading `.*` is
greedy, so the rightmost occurrence of the literal `images/` whose remainder
matches `imgTail` wins. -/
def imageMatchCore (s : List Char) : Option (List Char × List Char) :=
  (List.range (s.length + 1)).reverse.findSome? (fun j =>
    let rest := s.drop j
    if rest.take 7 = "images/".data then imgTail (rest.drop 7) else none)

/-- `IMAGE_RE.match(url)` returning the captured `(name, tag)`. -/
def imageMatch (url : String) : Option (String × String) :=
  match reCore url.data with
  | none => none
  | some core =>
    match imageMatchCore core with
    | some (name, tag) => some (String.mk name, String.mk tag)
    | none => none

/-! ## Data model (lines 31-39) -/

/-- `Package = namedtuple('Package', "arch fname url repodata_md")`. -/
structure Package where
  arch : String
  fname : String
  url : String
  repodataMd : String
deriving DecidableEq, Repr

/-- `Image = namedtuple('Image', "url name tag")`. -/
structure Image where
  url : String
  name : String
  tag : String
deriving DecidableEq, Repr

/-- One element of the CircleCI artifact listing: the tuples
`(path, url, buildno)` iterated by `check_circle_artifacts` (line 265) and
`merge_pr` (line 344). -/
structure Artifact where
  path : String
  url : String
  buildno : Nat
deriving DecidableEq, Repr

/-! ## `check_circle_artifacts` classification (lines 257-281) -/

/-- First pass of `check_circle_artifacts` (line 259):
`artifact_urls = set(a[1] for a in artifacts)`, kept as the list of urls
(membership in it is what the code consults). -/
def artifactUrls (arts : List Artifact) : List String := arts.map Artifact.url

/-- `repodata_url = '/'.join((repo_url, arch, 'repodata.json'))` (line 271). -/
def mkRepodataUrl (repoUrl arch : String) : String :=
  repoUrl ++ "/" ++ arch ++ "/repodata.json"

/-- The markdown link `"[repodata.json]({})".format(repodata_url)`
(line 275). -/
def mkRepodataMd (repodataUrl : String) : String :=
  "[repodata.json](" ++ repodataUrl ++ ")"

/-- Package branch of the classification loop (lines 266-277): on a
`PACKAGE_RE` match, build the `Package` record, attaching the repodata link
exactly when the sibling `repodata.json` url is in the url set collected by
the first pass. -/
def classifyPkg (urls : List String) (url : String) : Option Package :=
  match packageMatch url with
  | some (repoUrl, arch, fname) =>
    let repodataUrl := mkRepodataUrl repoUrl arch
    let repodataMd := if repodataUrl ∈ urls then mkRepodataMd repodataUrl else ""
    some ⟨arch, fname, url, repodataMd⟩
  | none => none

/-- The `packages` list built by the loop (lines 261, 265-277). -/
def ccaPackages (arts : List Artifact) : List Package :=
  arts.filterMap (fun a => classifyPkg (artifactUrls arts) a.url)

/-- The `images` list built by the loop (lines 262, 278-281); the `continue`
on a package match (line 277) means only non-package urls are tested against
`IMAGE_RE`. -/
def ccaImages (arts : List Artifact) : List Image :=
  arts.filterMap (fun a =>
    match packageMatch a.url with
    | some _ => none
    | none =>
      match imageMatch a.url with
      | some (name, tag) => some ⟨a.url, name, tag⟩
      | none => none)

/-- The `(repo_url, arch)` insertions into the `repos` dict-of-sets
(lines 273-274): one insertion per package artifact whose sibling
`repodata.json` url is present.  The content of `repos` is the set of these
pairs. -/
def ccaRepoPairs (arts : List Artifact) : List (String × String) :=
  arts.filterMap (fun a =>
    match packageMatch a.url with
    | some (repoUrl, arch, _fname) =>
      if mkRepodataUrl repoUrl arch ∈ artifactUrls arts then some (repoUrl, arch)
      else none
    | none => none)

/-! ## The `Checkout` async context manager (lines 41-106) -/

/-- The process state touched by a `Checkout` scope: the process-wide
current working directory, the recorded `self.orig_cwd` (a `None`-initialised
attribute, line 60), and whether the temporary clone `self.git` was created
(line 79) and later closed (line 106). -/
structure CState where
  cwd : String
  origCwd : Option String := none
  gitCreated : Bool := false
  gitClosed : Bool := false
deriving DecidableEq, Repr

/-- Oracle for one `Checkout.__aenter__` run.  Each field answers "does this
acquisition step succeed?" for the corresponding line of the source;
`none`/`false` means the step raises. -/
structure CheckoutEnv where
  /-- The `issue_number` constructor argument (line 63). -/
  issueNumber : Option Nat
  /-- Result of `ghapi.get_prs` plus the `head` field lookups
  (lines 68-71): `none` if the call or a key lookup raises. -/
  getPrs : Option (String × String × String)
  /-- `TempBiocondaRepo(...)` construction succeeds (lines 79-85). -/
  cloneOk : Bool
  /-- `self.git.set_user(BOT_NAME, BOT_EMAIL)` succeeds (line 87). -/
  setUserOk : Bool
  /-- `os.chdir(self.git.tempdir.name)` succeeds (line 90). -/
  chdirOk : Bool
  /-- `self.git.tempdir.name`, the clone's directory (line 90). -/
  tempdirName : String
  /-- `self.git.create_local_branch(branch_name, ref)` (line 92):
  `none` if the call raises, `some false` if it returns `None` (which makes
  line 94 raise `RuntimeError`), `some true` if a branch is returned. -/
  branchResult : Option Bool
  /-- `branch.checkout()` succeeds (line 95). -/
  checkoutOk : Bool

/-- The `try` body of `Checkout.__aenter__` (lines 66-97), started from
working directory `cwd0`.  Returns the state of the process and of the
`Checkout` attributes at the point the body returns or raises, and `.ok` or
`.error` accordingly.  Note `self.orig_cwd = os.getcwd()` (line 89) is only
reached after the clone exists, and `os.chdir` (line 90) only after the
recording, so the state at each raise site is explicit below. -/
def aenterBody (env : CheckoutEnv) (cwd0 : String) : CState × Except Unit Unit :=
  match env.issueNumber, env.getPrs with
  | some _, none =>
    -- lines 68-71: `get_prs` or a `head` key lookup raised
    ({ cwd := cwd0 }, .error ())
  | _, _ =>
    if env.cloneOk = false then
      -- lines 79-85: `TempBiocondaRepo(...)` raised before `self.git` was set
      ({ cwd := cwd0 }, .error ())
    else if env.setUserOk = false then
      -- line 87: `set_user` raised; `self.git` set, `orig_cwd` not recorded
      ({ cwd := cwd0, gitCreated := true }, .error ())
    else if env.chdirOk = false then
      -- line 90: `os.chdir` raised; `orig_cwd` recorded, cwd unchanged
      ({ cwd := cwd0, origCwd := some cwd0, gitCreated := true }, .error ())
    else
      match env.branchResult with
      | none =>
        -- line 92: `create_local_branch` raised
        ({ cwd := env.tempdirName, origCwd := some cwd0, gitCreated := true }, .error ())
      | some false =>
        -- line 94: branch is `None`, `RuntimeError(f"Failed to find ...")`
        ({ cwd := env.tempdirName, origCwd := some cwd0, gitCreated := true }, .error ())
      | some true =>
        if env.checkoutOk = false then
          -- line 95: `branch.checkout()` raised
          ({ cwd := env.tempdirName, origCwd := some cwd0, gitCreated := true }, .error ())
        else
          -- line 97: `return self.git`
          ({ cwd := env.tempdirName, origCwd := some cwd0, gitCreated := true }, .ok ())

/-- `Checkout.__aenter__` (lines 65-100): the whole body runs under
`try ... except Exception: logger.exception(...); return None`, so an
`.error` from the body becomes the `None` result and is not re-raised. -/
def aenter (env : CheckoutEnv) (cwd0 : String) : CState × Option Unit :=
  match aenterBody env cwd0 with
  | (s, Except.ok _) => (s, some ())
  | (s, Except.error _) => (s, none)

/-- `Checkout.__aexit__` (lines 102-106): `if self.orig_cwd: os.chdir(...)`
(Python string truthiness: an empty recorded directory would be falsy),
then `if self.git: self.git.close()`. -/
def aexit (s : CState) : CState :=
  let s1 :=
    match s.origCwd with
    | some c => if c = "" then s else { s with cwd := c }
    | none => s
  if s1.gitCreated then { s1 with gitClosed := true } else s1

/-! ## The `bump` handler (lines 135-151) -/

/-- Oracle for one `bump` run: `none` when the `Checkout` yields `None`
(line 140), otherwise the list returned by `git.get_changed_recipes()`
(line 143). -/
structure BumpEnv where
  checkout : Option (List String)

/-- Outcome of a `bump` run. -/
inductive BumpResult
  /-- Checkout unavailable: `logger.error("Failed to checkout"); return`
  (lines 140-142). -/
  | checkoutFailed
  /-- A `NameError` escapes from composing `msg` (line 148); the payload is
  the unbound name. -/
  | nameError (missing : String)
deriving DecidableEq, Repr

/-- Effects of a `bump` run. -/
structure BumpTrace where
  /-- Recipes whose build number was bumped and saved (lines 144-147). -/
  savedRecipes : List String := []
  /-- Whether `git.commit_and_push_changes` (line 149) was reached. -/
  pushAttempted : Bool := false
deriving DecidableEq, Repr

/-- The `bump` handler (lines 135-151).  After the recipe loop, line 148
evaluates `msg = f"Bump {recipe} buildno to {buildno}"`.  The f-string
fields are evaluated left to right: `recipe` is the loop variable of
lines 144-147, so it is unbound exactly when the recipe list is empty
(UnboundLocalError, a NameError); `buildno` is assigned nowhere in the
function and is no global or builtin, so its lookup always raises
NameError.  Either way line 149 (`commit_and_push_changes`) is never
reached. -/
def bump (env : BumpEnv) : BumpResult × BumpTrace :=
  match env.checkout with
  | none => (.checkoutFailed, {})
  | some recipes =>
    if recipes.isEmpty then (.nameError "recipe", { savedRecipes := recipes })
    else (.nameError "buildno", { savedRecipes := recipes })

/-! ## Co-author collection in `merge_pr` (lines 428-444) -/

/-- One element of `ghapi.iter_pr_commits`: the commit sha, the GitHub
author association `commit['author']` (which may be null or lack a login,
line 435), and the git-level `commit['commit']['author']` name and email
(lines 437-438). -/
structure CommitRec where
  sha : String
  authorLogin : Option String
  name : String
  email : String
deriving DecidableEq, Repr

/-- `f"Co-authored-by: {name} <{email}>"` (line 439). -/
def mkCoauthorLine (name email : String) : String :=
  "Co-authored-by: " ++ name ++ " <" ++ email ++ ">"

/-- The display handle added to `coauthor_logins` (lines 440-443):
`"@"+author_login` when a login exists, else the commit author name. -/
def coauthorDisplay (c : CommitRec) : String :=
  match c.authorLogin with
  | some l => "@" ++ l
  | none => c.name

/-- One iteration of the commit loop (lines 433-443): a commit contributes
a co-author line and a display handle iff `author_login != pr_author`
(line 436); note a null `author_login` always compares unequal to the
pr author's login string. -/
def coauthorStep (prAuthor : String) (acc : Finset String × Finset String)
    (c : CommitRec) : Finset String × Finset String :=
  if c.authorLogin ≠ some prAuthor then
    (insert (mkCoauthorLine c.name c.email) acc.1,
     insert (coauthorDisplay c) acc.2)
  else acc

/-- The `coauthors` and `coauthor_logins` sets after the commit loop
(lines 430-443), starting from two empty sets. -/
def coauthorSets (prAuthor : String) (commits : List CommitRec) :
    Finset String × Finset String :=
  commits.foldl (coauthorStep prAuthor) (∅, ∅)

/-! ## The `merge_pr` handler (lines 313-454) -/

/-- Result of one (possibly rescheduled) `merge_pr` task as seen by celery. -/
inductive TaskOutcome
  /-- The handler returned the pair `(success, message)`. -/
  | ok (success : Bool) (msg : String)
  /-- An exception escaped the handler body; the payload names the raising
  operation. -/
  | exn (what : String)
deriving DecidableEq, Repr

/-- Effect trace of one `merge_pr` run. -/
structure MergeTrace where
  /-- `tempfile.TemporaryDirectory()` was entered (line 367). -/
  tmpdirCreated : Bool := false
  /-- The scratch directory was removed again (the context manager's exit
  runs on every path out of the `with` block, exceptional or not). -/
  tmpdirCleaned : Bool := false
  /-- `utils.AsyncRequests.async_fetch` was called (line 379). -/
  fetchCalled : Bool := false
  /-- `(ndref, attempts)` for each image reaching the skopeo loop
  (lines 393-398). -/
  imageAttempts : List (String × Nat) := []
  /-- `(fname, attempts)` for each package reaching the anaconda loop
  (lines 409-414). -/
  packageAttempts : List (String × Nat) := []
  /-- The `uploaded` list (lines 389, 402, 418): artifacts whose upload
  succeeded; never rolled back by later failures. -/
  uploaded : List String := []
deriving DecidableEq, Repr

/-- Oracle for `merge_pr`.  The artifact listing is given directly (the
branch/sha plumbing of lines 328-340 only selects which listing CircleCI
returns). -/
structure MergeEnv where
  /-- `ghapi.check_protections(...)` (line 316) on the invocation whose
  celery retry counter is the argument: `(state, message)` with
  `none` = indeterminate. -/
  protections : Nat → Option Bool × String
  /-- `capi.get_artifacts(branch, head_sha)` (line 340). -/
  artifacts : List Artifact
  /-- `await utils.AsyncRequests.async_fetch(urls, fds=fds)` (line 379)
  returns normally (`false` = it raises). -/
  fetchOk : Bool
  /-- `skopeo_upload(fpath, ndref, creds=QUAY_LOGIN)` (line 395) for a given
  destination ref and 0-based attempt number. -/
  skopeo : String → Nat → Bool
  /-- `anaconda_upload(fpath, token=ANACONDA_TOKEN)` (line 411) for a given
  package fname and 0-based attempt number. -/
  anaconda : String → Nat → Bool
  /-- `ghapi.iter_pr_commits(pr_number)` (line 433). -/
  commits : List CommitRec
  /-- `pr['user']['login']` (line 429). -/
  prUser : String
  /-- The pair returned by `ghapi.merge_pr(...)` (line 453). -/
  mergeResult : Bool × String

/-- `os.path.join(a, b)` for the two-argument uses in `merge_pr`:
an absolute second component replaces the first, otherwise the components
are joined with exactly one separator. -/
def ospJoin (a b : String) : String :=
  if b.data.take 1 = ['/'] then b
  else if a = "" then b
  else if a.data.getLast? = some '/' then a ++ b
  else a ++ "/" ++ b

/-- The artifact classification loop of `merge_pr` (lines 341-357),
returning `(files, packages, images)`:
`files` collects `(url, fpath)` download jobs, `packages` the package
fpaths `os.path.join(arch, fname)`, and `images` the pairs
`(f"{name}__{tag}.tar.gz", f"{name}:{tag}")`.  The `continue` on a package
match means `IMAGE_RE` is only tried on non-package urls. -/
def mergeClassify :
    List Artifact → List (String × String) × List String × List (String × String)
  | [] => ([], [], [])
  | a :: rest =>
    let r := mergeClassify rest
    match packageMatch a.url with
    | some g =>
      let fpath := ospJoin g.2.1 g.2.2
      ((a.url, fpath) :: r.1, fpath :: r.2.1, r.2.2)
    | none =>
      match imageMatch a.url with
      | some (name, tag) =>
        let fname := name ++ "__" ++ tag ++ ".tar.gz"
        ((a.url, fname) :: r.1, r.2.1, (fname, name ++ ":" ++ tag) :: r.2.2)
      | none => r

/-- The retry loop body `for _ in range(5): if op(): break; sleep(5)`
(lines 393-398 and 409-414): `i` is the 0-based attempt about to be made,
the second argument the number of loop iterations left.  Returns the number
of attempts actually made and whether one succeeded (`false` corresponds to
the `for`-`else` branch). -/
def retryGo (op : Nat → Bool) : Nat → Nat → Nat × Bool
  | _, 0 => (0, false)
  | i, r + 1 =>
    if op i then (1, true)
    else ((retryGo op (i + 1) r).1 + 1, (retryGo op (i + 1) r).2)

/-- One full `for _ in range(5)` upload-retry loop. -/
def retryLoop (op : Nat → Bool) : Nat × Bool := retryGo op 0 5

/-- The sequence of upload loops over a list of targets (the image loop of
lines 390-404 or the package loop of lines 407-420): returns the targets
uploaded (in order), the per-target attempt counts, and whether all targets
succeeded; the first exhausted retry loop stops the sequence (the enclosing
`return`). -/
def runUploads (op : String → Nat → Bool) : List String → List String × List (String × Nat) × Bool
  | [] => ([], [], true)
  | t :: ts =>
    let res := retryLoop (op t)
    if res.2 then
      let rest := runUploads op ts
      (t :: rest.1, (t, res.1) :: rest.2.1, rest.2.2)
    else ([], [(t, res.1)], false)

/-- Body of `merge_pr` after a determinate protection check (lines 322-454),
with `state`/`message` the components of the `check_protections` result.
The progress-comment updates (lines 324-326, 362-363, 403-404, 419-420,
447-451) and the commit-message composition from `lines` and
`coauthorSets env.prUser env.commits` (lines 422-450) do not influence the
returned pair or the trace; the final returned pair is the result of
`ghapi.merge_pr` (line 453). -/
def merge_pr_main (env : MergeEnv) (state : Bool) (message : String) :
    TaskOutcome × MergeTrace :=
  if state = false then
    -- line 322-323: `if not state: return state, message`
    (.ok false message, {})
  else
    let cls := mergeClassify env.artifacts
    if cls.1.isEmpty then
      -- lines 359-360
      (.ok false "PR did not build any packages.", {})
    else if env.fetchOk = false then
      -- lines 367-384: `async_fetch` raises inside `try ... finally`; the
      -- `finally` only closes the file handles and the `with` exit removes
      -- the scratch directory; there is no `except`, so the exception then
      -- propagates out of `merge_pr`
      (.exn "async_fetch",
       { tmpdirCreated := true, tmpdirCleaned := true, fetchCalled := true })
    else
      -- line 380: `done = True` (only reachable when `async_fetch` returned)
      let done := true
      if done = false then
        -- lines 385-386: dead code, `done` is always `True` here
        (.ok false "Failed to download archives. Please try again later",
         { tmpdirCreated := true, tmpdirCleaned := true, fetchCalled := true })
      else
        -- lines 388-404: image uploads, `ndref = "biocontainers/"+dref`
        let ndrefs := cls.2.2.map (fun i => "biocontainers/" ++ i.2)
        let ru := runUploads env.skopeo ndrefs
        if ru.2.2 = false then
          (.ok false "Failed to upload image to Quay.io",
           { tmpdirCreated := true, tmpdirCleaned := true, fetchCalled := true,
             imageAttempts := ru.2.1, uploaded := ru.1 })
        else
          -- lines 406-420: package uploads
          let rp := runUploads env.anaconda cls.2.1
          if rp.2.2 = false then
            (.ok false "Failed to upload package to Anaconda",
             { tmpdirCreated := true, tmpdirCleaned := true, fetchCalled := true,
               imageAttempts := ru.2.1, packageAttempts := rp.2.1,
               uploaded := ru.1 ++ rp.1 })
          else
            -- lines 422-454: compose message, squash-merge via the API
            (.ok env.mergeResult.1 env.mergeResult.2,
             { tmpdirCreated := true, tmpdirCleaned := true, fetchCalled := true,
               imageAttempts := ru.2.1, packageAttempts := rp.2.1,
               uploaded := ru.1 ++ rp.1 })

/-- The celery retry protocol around `merge_pr` (lines 313-321).  The task
is declared with `bind=True` and calls
`self.retry(countdown=20, max_retries=15)` when the protection state is
indeterminate.  Celery's `Task.retry` raises `Retry` (re-scheduling the task
with the retry counter incremented) while `request.retries + 1 <= 15`, and
raises `MaxRetriesExceededError` otherwise, which line 320-321 turns into
the non-fatal "cannot be merged" pair.  `budget` is the number of
reschedules still allowed, i.e. `15 - retries`; it is the structural
recursion variable.  Returns the final outcome, its trace, and the list of
reschedule countdowns (one `20` per `Retry`). -/
def merge_pr_aux (env : MergeEnv) : Nat → Nat → TaskOutcome × MergeTrace × List Nat
  | retries, 0 =>
    match env.protections retries with
    | (none, _) =>
      -- `self.retry` raises `MaxRetriesExceededError`, caught on line 320
      (.ok false "PR cannot be merged at this time. Please try again later", {}, [])
    | (some state, message) =>
      let r := merge_pr_main env state message
      (r.1, r.2, [])
  | retries, b + 1 =>
    match env.protections retries with
    | (none, _) =>
      -- `self.retry` raises `Retry`: celery re-invokes with `retries + 1`
      let r := merge_pr_aux env (retries + 1) b
      (r.1, r.2.1, 20 :: r.2.2)
    | (some state, message) =>
      let r := merge_pr_main env state message
      (r.1, r.2, [])

/-- A `merge_pr` invocation whose celery retry counter is `retries`
(the first invocation has `retries = 0`), run to completion through all
self-reschedules. -/
def merge_pr (env : MergeEnv) (retries : Nat) : TaskOutcome × MergeTrace × List Nat :=
  merge_pr_aux env retries (15 - retries)

/-! ## Concrete instances used to evaluate the model -/

/-- A merge run that passes protections, lists one package artifact, and
whose `async_fetch` fails. -/
def envC1 : MergeEnv :=
  { protections := fun _ => (some true, "ok")
    artifacts := [⟨"", "P/packages/noarch/x.tar.bz2", 0⟩]
    fetchOk := false
    skopeo := fun _ _ => true
    anaconda := fun _ _ => true
    commits := []
    prUser := ""
    mergeResult := (true, "m") }

/-- A merge run whose protection check fails determinately at once. -/
def envC2a : MergeEnv :=
  { protections := fun _ => (some false, "branch protection veto")
    artifacts := []
    fetchOk := true
    skopeo := fun _ _ => true
    anaconda := fun _ _ => true
    commits := []
    prUser := ""
    mergeResult := (true, "m") }

/-- A merge run whose protection check is indeterminate forever. -/
def envC2b : MergeEnv :=
  { protections := fun _ => (none, "")
    artifacts := []
    fetchOk := true
    skopeo := fun _ _ => true
    anaconda := fun _ _ => true
    commits := []
    prUser := ""
    mergeResult := (true, "m") }

/-- A merge run whose protection check is indeterminate on the first 15
invocations and returns a concrete `False` on invocation 16. -/
def envC2cex : MergeEnv :=
  { protections := fun r => if r < 15 then (none, "") else (some false, "required check failed")
    artifacts := []
    fetchOk := true
    skopeo := fun _ _ => true
    anaconda := fun _ _ => true
    commits := []
    prUser := ""
    mergeResult := (true, "m") }

/-- A merge run with one image artifact whose skopeo upload always fails. -/
def envC3a : MergeEnv :=
  { protections := fun _ => (some true, "ok")
    artifacts := [⟨"", "d/images/foo:1.0.tar.gz", 0⟩]
    fetchOk := true
    skopeo := fun _ _ => false
    anaconda := fun _ _ => true
    commits := []
    prUser := ""
    mergeResult := (true, "m") }

/-- A merge run with one image and one package artifact, where the image
upload succeeds and the package upload always fails. -/
def envC3b : MergeEnv :=
  { protections := fun _ => (some true, "ok")
    artifacts := [⟨"", "d/images/foo:1.0.tar.gz", 0⟩, ⟨"", "P/packages/noarch/x.tar.bz2", 0⟩]
    fetchOk := true
    skopeo := fun _ _ => true
    anaconda := fun _ _ => false
    commits := []
    prUser := ""
    mergeResult := (true, "m") }

/-- A checkout acquisition that fails mid-setup on an unresolvable branch
(after the clone was created, the working directory recorded and changed). -/
def envC4 : CheckoutEnv :=
  { issueNumber := none
    getPrs := none
    cloneOk := true
    setUserOk := true
    chdirOk := true
    tempdirName := "/tmp/clone"
    branchResult := some false
    checkoutOk := true }

/-- A merge run that passes protections but whose artifact listing is
empty. -/
def envC6 : MergeEnv :=
  { protections := fun _ => (some true, "ok")
    artifacts := []
    fetchOk := true
    skopeo := fun _ _ => true
    anaconda := fun _ _ => true
    commits := []
    prUser := ""
    mergeResult := (true, "m") }

/-- An artifact batch holding one package and the repodata url the spec's
grammar calls its sibling (`<path>/<arch>/repodata.json` with `<path>` the
part before `/packages`). -/
def artsC5cex : List Artifact :=
  [⟨"", "P/packages/noarch/x.tar.bz2", 0⟩, ⟨"", "P/noarch/repodata.json", 0⟩]

/-- An artifact batch holding one package and the repodata url the code
actually looks up (first regex group, i.e. including `packages`, then the
architecture). -/
def artsC5 : List Artifact :=
  [⟨"", "P/packages/noarch/x.tar.bz2", 0⟩, ⟨"", "P/packages/noarch/repodata.json", 0⟩]

/-- `artsC5` in the opposite order. -/
def artsC5r : List Artifact :=
  [⟨"", "P/packages/noarch/repodata.json", 0⟩, ⟨"", "P/packages/noarch/x.tar.bz2", 0⟩]

/-- A commit whose GitHub author association is null. -/
def commitC10 : CommitRec :=
  { sha := "s1", authorLogin := none, name := "Alice", email := "alice@example.com" }

/-! ## Helper lemmas -/

theorem filterMap_congr_mem {α β : Type} (f g : α → Option β)
    (l : List α) (h : ∀ a ∈ l, f a = g a) : l.filterMap f = l.filterMap g := by
  induction l with
  | nil => rfl
  | cons a l ih =>
    simp only [List.filterMap_cons, h a (List.mem_cons_self a l)]
    rw [ih (fun b hb => h b (List.mem_cons_of_mem a hb))]

theorem classifyPkg_congr (urls urls' : List String) (url : String)
    (h : ∀ u : String, u ∈ urls ↔ u ∈ urls') :
    classifyPkg urls url = classifyPkg urls' url := by
  unfold classifyPkg
  cases hm : packageMatch url with
  | none => rfl
  | some g =>
    obtain ⟨repoUrl, arch, fname⟩ := g
    dsimp only
    rw [if_congr (h (mkRepodataUrl repoUrl arch)) rfl rfl]

theorem coauthor_foldl_mem_fst (pa : String) (l : List CommitRec) :
    ∀ (acc : Finset String × Finset String) (x : String),
      x ∈ (l.foldl (coauthorStep pa) acc).1 ↔
        x ∈ acc.1 ∨ ∃ c ∈ l, c.authorLogin ≠ some pa ∧
          x = mkCoauthorLine c.name c.email := by
  induction l with
  | nil => intro acc x; simp
  | cons c l ih =>
    intro acc x
    rw [List.foldl_cons, ih]
    by_cases hc : c.authorLogin ≠ some pa
    · simp only [coauthorStep, if_pos hc, Finset.mem_insert, List.mem_cons]
      constructor
      · rintro ((rfl | hx) | ⟨c', hc', hne, rfl⟩)
        · exact Or.inr ⟨c, Or.inl rfl, hc, rfl⟩
        · exact Or.inl hx
        · exact Or.inr ⟨c', Or.inr hc', hne, rfl⟩
      · rintro (hx | ⟨c', rfl | hc', hne, rfl⟩)
        · exact Or.inl (Or.inr hx)
        · exact Or.inl (Or.inl rfl)
        · exact Or.inr ⟨c', hc', hne, rfl⟩
    · simp only [coauthorStep, if_neg hc, List.mem_cons]
      constructor
      · rintro (hx | ⟨c', hc', hne, rfl⟩)
        · exact Or.inl hx
        · exact Or.inr ⟨c', Or.inr hc', hne, rfl⟩
      · rintro (hx | ⟨c', rfl | hc', hne, rfl⟩)
        · exact Or.inl hx
        · exact absurd hne hc
        · exact Or.inr ⟨c', hc', hne, rfl⟩

theorem coauthor_foldl_mem_snd (pa : String) (l : List CommitRec) :
    ∀ (acc : Finset String × Finset String) (x : String),
      x ∈ (l.foldl (coauthorStep pa) acc).2 ↔
        x ∈ acc.2 ∨ ∃ c ∈ l, c.authorLogin ≠ some pa ∧ x = coauthorDisplay c := by
  induction l with
  | nil => intro acc x; simp
  | cons c l ih =>
    intro acc x
    rw [List.foldl_cons, ih]
    by_cases hc : c.authorLogin ≠ some pa
    · simp only [coauthorStep, if_pos hc, Finset.mem_insert, List.mem_cons]
      constructor
      · rintro ((rfl | hx) | ⟨c', hc', hne, rfl⟩)
        · exact Or.inr ⟨c, Or.inl rfl, hc, rfl⟩
        · exact Or.inl hx
        · exact Or.inr ⟨c', Or.inr hc', hne, rfl⟩
      · rintro (hx | ⟨c', rfl | hc', hne, rfl⟩)
        · exact Or.inl (Or.inr hx)
        · exact Or.inl (Or.inl rfl)
        · exact Or.inr ⟨c', hc', hne, rfl⟩
    · simp only [coauthorStep, if_neg hc, List.mem_cons]
      constructor
      · rintro (hx | ⟨c', hc', hne, rfl⟩)
        · exact Or.inl hx
        · exact Or.inr ⟨c', Or.inr hc', hne, rfl⟩
      · rintro (hx | ⟨c', rfl | hc', hne, rfl⟩)
        · exact Or.inl hx
        · exact absurd hne hc
        · exact Or.inr ⟨c', hc', hne, rfl⟩

theorem retryGo_all_fail (op : Nat → Bool) :
    ∀ (r i : Nat), (∀ j, j < r → op (i + j) = false) → retryGo op i r = (r, false) := by
  intro r
  induction r with
  | zero => intro i _; rfl
  | succ r ih =>
    intro i h
    have h0 : op i = false := by simpa using h 0 (Nat.succ_pos r)
    have hrest : retryGo op (i + 1) r = (r, false) := by
      apply ih
      intro j hj
      have h2 := h (j + 1) (by omega)
      rw [show i + 1 + j = i + (j + 1) by omega]
      exact h2
    simp [retryGo, h0, hrest]

theorem retryGo_succeeds (op : Nat → Bool) :
    ∀ (r k i : Nat), k < r → (∀ j, j < k → op (i + j) = false) → op (i + k) = true →
      retryGo op i r = (k + 1, true) := by
  intro r
  induction r with
  | zero => intro k i hk; omega
  | succ r ih =>
    intro k i hk hfail hsucc
    cases k with
    | zero =>
      have h0 : op i = true := by simpa using hsucc
      simp [retryGo, h0]
    | succ k =>
      have h0 : op i = false := by simpa using hfail 0 (Nat.succ_pos k)
      have hrest : retryGo op (i + 1) r = (k + 1, true) := by
        apply ih k (i + 1) (by omega)
        · intro j hj
          have h2 := hfail (j + 1) (by omega)
          rw [show i + 1 + j = i + (j + 1) by omega]
          exact h2
        · rw [show i + 1 + k = i + (k + 1) by omega]
          exact hsucc
      simp [retryGo, h0, hrest]

theorem retryGo_congr (op op' : Nat → Bool) :
    ∀ (r i : Nat), (∀ j, j < r → op (i + j) = op' (i + j)) →
      retryGo op i r = retryGo op' i r := by
  intro r
  induction r with
  | zero => intro i _; rfl
  | succ r ih =>
    intro i h
    have h0 : op i = op' i := by simpa using h 0 (Nat.succ_pos r)
    have hrest : retryGo op (i + 1) r = retryGo op' (i + 1) r := by
      apply ih
      intro j hj
      have h2 := h (j + 1) (by omega)
      rw [show i + 1 + j = i + (j + 1) by omega]
      exact h2
    simp [retryGo, h0, hrest]

theorem mergeClassify_nil_iff (arts : List Artifact) :
    (mergeClassify arts).1 = [] ↔
      (mergeClassify arts).2.1 = [] ∧ (mergeClassify arts).2.2 = [] := by
  induction arts with
  | nil => simp [mergeClassify]
  | cons a rest ih =>
    simp only [mergeClassify]
    cases hp : packageMatch a.url with
    | some g => simp
    | none =>
      cases hi : imageMatch a.url with
      | some nt =>
        obtain ⟨n, t⟩ := nt
        simp
      | none => simpa using ih

theorem merge_pr_determinate (env : MergeEnv) (retries : Nat) (st : Bool) (msg : String)
    (h : env.protections retries = (some st, msg)) :
    merge_pr env retries =
      ((merge_pr_main env st msg).1, (merge_pr_main env st msg).2, []) := by
  unfold merge_pr
  cases hb : 15 - retries with
  | zero => simp [merge_pr_aux, h]
  | succ b => simp [merge_pr_aux, h]

theorem merge_pr_aux_skip (env : MergeEnv) :
    ∀ (k retries : Nat),
      (∀ r, retries ≤ r → r < retries + k → (env.protections r).1 = none) →
      merge_pr_aux env retries k =
        ((merge_pr_aux env (retries + k) 0).1,
         (merge_pr_aux env (retries + k) 0).2.1,
         List.replicate k 20 ++ (merge_pr_aux env (retries + k) 0).2.2) := by
  intro k
  induction k with
  | zero => intro retries _; simp
  | succ k ih =>
    intro retries h
    have h0 : (env.protections retries).1 = none := h retries le_rfl (by omega)
    rcases hp : env.protections retries with ⟨st, m⟩
    rw [hp] at h0
    simp only at h0
    subst h0
    have hrec : merge_pr_aux env (retries + 1) k =
        ((merge_pr_aux env (retries + 1 + k) 0).1,
         (merge_pr_aux env (retries + 1 + k) 0).2.1,
         List.replicate k 20 ++ (merge_pr_aux env (retries + 1 + k) 0).2.2) := by
      apply ih
      intro r hr1 hr2
      exact h r (by omega) (by omega)
    have harg : retries + 1 + k = retries + (k + 1) := by omega
    rw [harg] at hrec
    simp [merge_pr_aux, hp, hrec, List.replicate_succ]

/-! ## Claim theorems -/

/-- Claim C1 (the code violates it): in `merge_pr`, a failure of the
artifact download does NOT produce the pair
`(False, "Failed to download archives. Please try again later")` — the
`try` block around `async_fetch` has only a `finally`, so the exception
escapes the handler (that `return` is dead code).  Evaluated at a concrete
failing input: protections pass, one package artifact, `async_fetch`
raises; the exception leaves the handler, while the scratch directory is
still cleaned up. -/
theorem merge_download_failure_escapes :
    merge_pr envC1 0 =
      (.exn "async_fetch",
       { tmpdirCreated := true, tmpdirCleaned := true, fetchCalled := true }, []) ∧
    (merge_pr envC1 0).1 ≠
      .ok false "Failed to download archives. Please try again later" := by
  constructor
  · decide
  · decide

/-- Claim C2, counterexample: a protection check that is indeterminate on
exactly the first 15 invocations and returns the concrete boolean `False`
with message "required check failed" on invocation 16 does NOT yield
"PR cannot be merged at this time. Please try again later" — the concrete
result is processed normally on attempt 16 and its message is returned
verbatim. -/
theorem merge_protection_retry_cex :
    merge_pr envC2cex 0 =
      (.ok false "required check failed", {}, List.replicate 15 20) ∧
    TaskOutcome.ok false "required check failed" ≠
      TaskOutcome.ok false "PR cannot be merged at this time. Please try again later" := by
  constructor
  · decide
  · decide

/-- Claim C2, amended: (1) a concrete protection result `False` on any
invocation short-circuits immediately, returning the protection message
verbatim with no reschedule; (2) an indeterminate result on all of the
first 16 invocations produces exactly 15 reschedules of 20 seconds and
then the non-fatal pair
`(False, "PR cannot be merged at this time. Please try again later")`;
(3) an indeterminate result exactly 15 times followed by a concrete `False`
on attempt 16 stays within the retry budget: after 15 reschedules of 20
seconds, the concrete result is processed and its message returned
verbatim (the budget is exhausted only by a 16th indeterminate result). -/
theorem merge_protection_retry_amended :
    (∀ (env : MergeEnv) (msg : String) (retries : Nat),
        env.protections retries = (some false, msg) →
        merge_pr env retries = (.ok false msg, {}, [])) ∧
    (∀ env : MergeEnv, (∀ r, r ≤ 15 → (env.protections r).1 = none) →
        merge_pr env 0 =
          (.ok false "PR cannot be merged at this time. Please try again later", {},
           List.replicate 15 20)) ∧
    (∀ (env : MergeEnv) (msg : String),
        (∀ r, r < 15 → (env.protections r).1 = none) →
        env.protections 15 = (some false, msg) →
        merge_pr env 0 = (.ok false msg, {}, List.replicate 15 20)) := by
  refine ⟨?_, ?_, ?_⟩
  · intro env msg retries h
    rw [merge_pr_determinate env retries false msg h]
    simp [merge_pr_main]
  · intro env h
    have hskip := merge_pr_aux_skip env 15 0 (fun r _ hr => h r (by omega))
    have h15 : (env.protections 15).1 = none := h 15 le_rfl
    rcases hp : env.protections 15 with ⟨st, m⟩
    rw [hp] at h15
    simp only at h15
    subst h15
    unfold merge_pr
    simp only [Nat.sub_zero, Nat.zero_add] at hskip ⊢
    rw [hskip]
    simp [merge_pr_aux, hp]
  · intro env msg h hp15
    have hskip := merge_pr_aux_skip env 15 0 (fun r _ hr => h r (by omega))
    unfold merge_pr
    simp only [Nat.sub_zero, Nat.zero_add] at hskip ⊢
    rw [hskip]
    simp [merge_pr_aux, hp15, merge_pr_main]

/-- Claim C2, amended, witness: the three amended conjuncts evaluated on
concrete protection oracles. -/
theorem merge_protection_retry_amended_witness :
    merge_pr envC2a 0 = (.ok false "branch protection veto", {}, []) ∧
    merge_pr envC2b 0 =
      (.ok false "PR cannot be merged at this time. Please try again later", {},
       List.replicate 15 20) ∧
    merge_pr envC2cex 0 = (.ok false "required check failed", {}, List.replicate 15 20) :=
  ⟨merge_protection_retry_amended.1 envC2a "branch protection veto" 0 rfl,
   merge_protection_retry_amended.2.1 envC2b (fun _ _ => rfl),
   merge_protection_retry_amended.2.2 envC2cex "required check failed" (by decide) rfl⟩

/-- Claim C6: a merge invocation that passes protections but whose CI
artifact list classifies to zero packages and zero images returns exactly
`(False, "PR did not build any packages.")`, with no scratch directory, no
download and no upload attempt (empty trace) and no reschedule. -/
theorem merge_no_artifacts_outcome (env : MergeEnv) (retries : Nat) (msg : String)
    (hprot : env.protections retries = (some true, msg))
    (hpkgs : (mergeClassify env.artifacts).2.1 = [])
    (himgs : (mergeClassify env.artifacts).2.2 = []) :
    merge_pr env retries = (.ok false "PR did not build any packages.", {}, []) := by
  have hfiles : (mergeClassify env.artifacts).1 = [] :=
    (mergeClassify_nil_iff _).mpr ⟨hpkgs, himgs⟩
  rw [merge_pr_determinate env retries true msg hprot]
  simp [merge_pr_main, hfiles]

/-- Claim C6, witness: the empty artifact listing. -/
theorem merge_no_artifacts_outcome_witness :
    merge_pr envC6 0 = (.ok false "PR did not build any packages.", {}, []) :=
  merge_no_artifacts_outcome envC6 0 "ok" rfl rfl rfl

/-- Claim C3: for the upload retry loops in `merge_pr`:
(1) an operation failing `N` times then succeeding, `N < 5`, makes exactly
`N + 1` attempts and reports success; (2) an operation failing on every
attempt makes exactly 5 attempts and reports failure; (3) the loop never
consults a 6th attempt (its result only depends on attempts 0 to 4);
(4) on success the artifact is recorded as uploaded and the loop sequence
continues with the remaining artifacts; (5) an exhausted image loop aborts
the handler with `(False, "Failed to upload image to Quay.io")`; (6) an
exhausted package loop aborts with
`(False, "Failed to upload package to Anaconda")` while the images already
uploaded in the same invocation stay recorded as uploaded (no rollback). -/
theorem merge_upload_retry_loop :
    (∀ (op : Nat → Bool) (N : Nat), N < 5 → (∀ i, i < N → op i = false) →
        op N = true → retryLoop op = (N + 1, true)) ∧
    (∀ op : Nat → Bool, (∀ i, i < 5 → op i = false) → retryLoop op = (5, false)) ∧
    (∀ op op' : Nat → Bool, (∀ i, i < 5 → op i = op' i) →
        retryLoop op = retryLoop op') ∧
    (∀ (op : String → Nat → Bool) (t : String) (ts : List String) (n : Nat),
        retryLoop (op t) = (n, true) →
        runUploads op (t :: ts) =
          (t :: (runUploads op ts).1, (t, n) :: (runUploads op ts).2.1,
           (runUploads op ts).2.2)) ∧
    (∀ (env : MergeEnv) (retries : Nat) (m : String)
        (u : List String) (att : List (String × Nat)),
        env.protections retries = (some true, m) →
        (mergeClassify env.artifacts).1 ≠ [] → env.fetchOk = true →
        runUploads env.skopeo
            ((mergeClassify env.artifacts).2.2.map (fun i => "biocontainers/" ++ i.2)) =
          (u, att, false) →
        merge_pr env retries =
          (.ok false "Failed to upload image to Quay.io",
           { tmpdirCreated := true, tmpdirCleaned := true, fetchCalled := true,
             imageAttempts := att, uploaded := u }, [])) ∧
    (∀ (env : MergeEnv) (retries : Nat) (m : String)
        (u u' : List String) (att att' : List (String × Nat)),
        env.protections retries = (some true, m) →
        (mergeClassify env.artifacts).1 ≠ [] → env.fetchOk = true →
        runUploads env.skopeo
            ((mergeClassify env.artifacts).2.2.map (fun i => "biocontainers/" ++ i.2)) =
          (u, att, true) →
        runUploads env.anaconda (mergeClassify env.artifacts).2.1 = (u', att', false) →
        merge_pr env retries =
          (.ok false "Failed to upload package to Anaconda",
           { tmpdirCreated := true, tmpdirCleaned := true, fetchCalled := true,
             imageAttempts := att, packageAttempts := att',
             uploaded := u ++ u' }, [])) := by
  refine ⟨?_, ?_, ?_, ?_, ?_, ?_⟩
  · intro op N hN hfail hsucc
    have := retryGo_succeeds op 5 N 0 hN (by simpa using hfail) (by simpa using hsucc)
    simpa [retryLoop] using this
  · intro op h
    have := retryGo_all_fail op 5 0 (fun j hj => by simpa using h j hj)
    simpa [retryLoop] using this
  · intro op op' h
    have := retryGo_congr op op' 5 0 (fun j hj => by simpa using h j hj)
    simpa [retryLoop] using this
  · intro op t ts n h
    simp [runUploads, h]
  · intro env retries m u att hprot hne hfetch himg
    have hempty : (mergeClassify env.artifacts).1.isEmpty = false := by
      cases h : (mergeClassify env.artifacts).1 with
      | nil => exact absurd h hne
      | cons a l => rfl
    rw [merge_pr_determinate env retries true m hprot]
    simp [merge_pr_main, hempty, hfetch, himg]
  · intro env retries m u u' att att' hprot hne hfetch himg hpkg
    have hempty : (mergeClassify env.artifacts).1.isEmpty = false := by
      cases h : (mergeClassify env.artifacts).1 with
      | nil => exact absurd h hne
      | cons a l => rfl
    rw [merge_pr_determinate env retries true m hprot]
    simp [merge_pr_main, hempty, hfetch, himg, hpkg]

/-- Claim C3, witness: the six conjuncts evaluated at concrete operations
and merge environments. -/
theorem merge_upload_retry_loop_witness :
    retryLoop (fun i => decide (2 ≤ i)) = (2 + 1, true) ∧
    retryLoop (fun _ => false) = (5, false) ∧
    retryLoop (fun _ => false) = retryLoop (fun i => decide (5 ≤ i)) ∧
    runUploads (fun _ _ => true) ["biocontainers/a:1"] =
      ("biocontainers/a:1" :: (runUploads (fun _ _ => true) []).1,
       ("biocontainers/a:1", 1) :: (runUploads (fun _ _ => true) []).2.1,
       (runUploads (fun _ _ => true) []).2.2) ∧
    merge_pr envC3a 0 =
      (.ok false "Failed to upload image to Quay.io",
       { tmpdirCreated := true, tmpdirCleaned := true, fetchCalled := true,
         imageAttempts := [("biocontainers/foo:1.0", 5)], uploaded := [] }, []) ∧
    merge_pr envC3b 0 =
      (.ok false "Failed to upload package to Anaconda",
       { tmpdirCreated := true, tmpdirCleaned := true, fetchCalled := true,
         imageAttempts := [("biocontainers/foo:1.0", 1)],
         packageAttempts := [("noarch/x.tar.bz2", 5)],
         uploaded := ["biocontainers/foo:1.0"] ++ [] }, []) :=
  ⟨merge_upload_retry_loop.1 (fun i => decide (2 ≤ i)) 2 (by decide)
      (fun i hi => by interval_cases i <;> decide) (by decide),
   merge_upload_retry_loop.2.1 (fun _ => false) (fun _ _ => rfl),
   merge_upload_retry_loop.2.2.1 (fun _ => false) (fun i => decide (5 ≤ i))
      (fun i hi => by interval_cases i <;> decide),
   merge_upload_retry_loop.2.2.2.1 (fun _ _ => true) "biocontainers/a:1" [] 1 rfl,
   merge_upload_retry_loop.2.2.2.2.1 envC3a 0 "ok" [] [("biocontainers/foo:1.0", 5)]
      rfl (by decide) rfl (by decide),
   merge_upload_retry_loop.2.2.2.2.2 envC3b 0 "ok" ["biocontainers/foo:1.0"] []
      [("biocontainers/foo:1.0", 1)] [("noarch/x.tar.bz2", 5)]
      rfl (by decide) rfl (by decide) (by decide)⟩

/-- Claim C4: for every `Checkout` scope, whatever the acquisition outcome
(handle, null, or setup failing partway, e.g. on an unresolvable branch),
after `__aexit__` the process working directory equals the directory
recorded before entry whenever it was recorded, and the temporary clone is
closed whenever it was created — `__aexit__` runs on every exit path of the
`async with`. -/
theorem checkout_scope_restores_cwd (env : CheckoutEnv) (cwd0 : String)
    (h : cwd0 ≠ "") :
    ((aenterBody env cwd0).1.origCwd.isSome = true →
      (aexit (aenterBody env cwd0).1).cwd = cwd0) ∧
    ((aenterBody env cwd0).1.gitCreated = true →
      (aexit (aenterBody env cwd0).1).gitClosed = true) := by
  obtain ⟨inum, prs, cok, suok, chok, tmp, br, chk⟩ := env
  cases inum <;> cases prs <;> cases cok <;> cases suok <;> cases chok <;>
    rcases br with _ | (_ | _) <;> cases chk <;>
    simp [aenterBody, aexit, h]

/-- Claim C4, witness: a checkout failing mid-setup on an unresolvable
branch, entered from the directory "/work". -/
theorem checkout_scope_restores_cwd_witness :
    ((aenterBody envC4 "/work").1.origCwd.isSome = true →
      (aexit (aenterBody envC4 "/work").1).cwd = "/work") ∧
    ((aenterBody envC4 "/work").1.gitCreated = true →
      (aexit (aenterBody envC4 "/work").1).gitClosed = true) :=
  checkout_scope_restores_cwd envC4 "/work" (by decide)

/-- Claim C8: `Checkout.__aenter__` returns null exactly when some
acquisition step fails (pull-request lookup, clone creation, identity
setting, directory change, branch creation or checkout) — every such
failure is caught by the surrounding `except Exception` and converted to
null, never propagated; and the caller `bump` treats the null as
"checkout unavailable", aborting with a logged error. -/
theorem checkout_exceptions_to_null :
    (∀ (env : CheckoutEnv) (cwd0 : String),
      (aenter env cwd0).2 = none ↔
        (env.issueNumber.isSome = true ∧ env.getPrs = none) ∨
        env.cloneOk = false ∨ env.setUserOk = false ∨ env.chdirOk = false ∨
        env.branchResult ≠ some true ∨ env.checkoutOk = false) ∧
    bump { checkout := none } = (.checkoutFailed, {}) := by
  refine ⟨?_, rfl⟩
  intro env cwd0
  obtain ⟨inum, prs, cok, suok, chok, tmp, br, chk⟩ := env
  cases inum <;> cases prs <;> cases cok <;> cases suok <;> cases chok <;>
    rcases br with _ | (_ | _) <;> cases chk <;>
    simp [aenter, aenterBody]

/-- Claim C9: whenever the `bump` handler's checkout succeeds, composing
the commit message raises a NameError — the name `buildno` is bound
nowhere in the handler, and `recipe` is also unbound when the changed
recipe list is empty — so `commit_and_push_changes` is never reached, for
any input. -/
theorem bump_name_error :
    (∀ (env : BumpEnv) (recipes : List String), env.checkout = some recipes →
        (bump env).1 = .nameError (if recipes.isEmpty then "recipe" else "buildno") ∧
        (bump env).2.savedRecipes = recipes) ∧
    (∀ env : BumpEnv, (bump env).2.pushAttempted = false) := by
  constructor
  · intro env recipes h
    obtain ⟨co⟩ := env
    simp only at h
    subst h
    cases he : recipes.isEmpty <;> simp [bump, he]
  · intro env
    obtain ⟨co⟩ := env
    rcases co with _ | rs
    · rfl
    · cases he : rs.isEmpty <;> simp [bump, he]

/-- Claim C9, witness: a successful checkout with one changed recipe; the
handler dies on the unbound `buildno` and never pushes. -/
theorem bump_name_error_witness :
    ((bump ⟨some ["recipes/foo/meta.yaml"]⟩).1 =
      .nameError (if (["recipes/foo/meta.yaml"] : List String).isEmpty
                  then "recipe" else "buildno") ∧
     (bump ⟨some ["recipes/foo/meta.yaml"]⟩).2.savedRecipes =
       ["recipes/foo/meta.yaml"]) ∧
    (bump ⟨some ["recipes/foo/meta.yaml"]⟩).2.pushAttempted = false :=
  ⟨bump_name_error.1 ⟨some ["recipes/foo/meta.yaml"]⟩ ["recipes/foo/meta.yaml"] rfl,
   bump_name_error.2 ⟨some ["recipes/foo/meta.yaml"]⟩⟩

/-- Claim C5, counterexample: in the batch `artsC5cex` the package
`P/packages/noarch/x.tar.bz2` (spec grammar: `<path>/packages/<arch>/<name>.tar.bz2`
with `<path> = "P"`, `<arch> = "noarch"`) has its spec-grammar sibling
`<path>/<arch>/repodata.json = P/noarch/repodata.json` present in the same
batch, yet the classified package carries no repodata link: the code looks
up `<first group>/<arch>/repodata.json = P/packages/noarch/repodata.json`
instead, so the claimed iff fails at this input. -/
theorem artifact_repodata_sibling_cex :
    "P/noarch/repodata.json" ∈ artifactUrls artsC5cex ∧
    packageMatch "P/packages/noarch/x.tar.bz2" =
      some ("P/packages", "noarch", "x.tar.bz2") ∧
    (ccaPackages artsC5cex).map Package.repodataMd = [""] := by
  refine ⟨by decide, by decide, by decide⟩

/-- Claim C5, amended: a classified package gains a repodata link iff the
exact url `<repo>/<arch>/repodata.json` appears in the same artifact batch,
where `<repo>` is the first regex group `(.*packages)` of the package's own
url — i.e. `<path>/packages/<arch>/repodata.json`, not
`<path>/<arch>/repodata.json`; and the final classification (packages,
images, repo grouping) does not depend on the iteration order of the
artifact list, because all urls are collected in a first pass. -/
theorem artifact_repodata_two_pass_amended :
    (∀ (arts : List Artifact) (url repoUrl arch fname : String),
        packageMatch url = some (repoUrl, arch, fname) →
        (classifyPkg (artifactUrls arts) url).map Package.repodataMd =
          some (if mkRepodataUrl repoUrl arch ∈ artifactUrls arts then
                  mkRepodataMd (mkRepodataUrl repoUrl arch) else "")) ∧
    (∀ arts arts' : List Artifact, arts.Perm arts' →
        (ccaPackages arts).Perm (ccaPackages arts') ∧
        (ccaImages arts).Perm (ccaImages arts') ∧
        (ccaRepoPairs arts).toFinset = (ccaRepoPairs arts').toFinset) := by
  constructor
  · intro arts url repoUrl arch fname h
    simp [classifyPkg, h]
  · intro arts arts' hp
    have hurls : ∀ u : String, u ∈ artifactUrls arts ↔ u ∈ artifactUrls arts' :=
      fun u => (hp.map Artifact.url).mem_iff
    refine ⟨?_, ?_, ?_⟩
    · have hre : arts'.filterMap (fun a => classifyPkg (artifactUrls arts') a.url) =
          arts'.filterMap (fun a => classifyPkg (artifactUrls arts) a.url) :=
        filterMap_congr_mem _ _ arts'
          (fun a _ => classifyPkg_congr _ _ a.url (fun u => (hurls u).symm))
      unfold ccaPackages
      rw [hre]
      exact hp.filterMap _
    · exact hp.filterMap _
    · have hre : arts'.filterMap (fun a =>
            match packageMatch a.url with
            | some (repoUrl, arch, _fname) =>
              if mkRepodataUrl repoUrl arch ∈ artifactUrls arts' then
                some (repoUrl, arch)
              else none
            | none => none) =
          arts'.filterMap (fun a =>
            match packageMatch a.url with
            | some (repoUrl, arch, _fname) =>
              if mkRepodataUrl repoUrl arch ∈ artifactUrls arts then
                some (repoUrl, arch)
              else none
            | none => none) := by
        apply filterMap_congr_mem
        intro a _
        cases hm : packageMatch a.url with
        | none => rfl
        | some g =>
          obtain ⟨repoUrl, arch, fname⟩ := g
          dsimp only
          rw [if_congr (hurls (mkRepodataUrl repoUrl arch)).symm rfl rfl]
      unfold ccaRepoPairs
      rw [hre]
      exact List.toFinset_eq_of_perm _ _ (hp.filterMap _)

/-- Claim C5, amended, witness: the code-sibling iff evaluated on a batch
where the link does attach, and order-independence on that batch and its
reversal. -/
theorem artifact_repodata_two_pass_amended_witness :
    (classifyPkg (artifactUrls artsC5) "P/packages/noarch/x.tar.bz2").map
        Package.repodataMd =
      some (if mkRepodataUrl "P/packages" "noarch" ∈ artifactUrls artsC5 then
              mkRepodataMd (mkRepodataUrl "P/packages" "noarch") else "") ∧
    ((ccaPackages artsC5).Perm (ccaPackages artsC5r) ∧
     (ccaImages artsC5).Perm (ccaImages artsC5r) ∧
     (ccaRepoPairs artsC5).toFinset = (ccaRepoPairs artsC5r).toFinset) :=
  ⟨artifact_repodata_two_pass_amended.1 artsC5 "P/packages/noarch/x.tar.bz2"
      "P/packages" "noarch" "x.tar.bz2" (by decide),
   artifact_repodata_two_pass_amended.2 artsC5 artsC5r (by decide)⟩

/-- Claim C7: for the commit sequence [A, B, A] with A the pull request's
own author, exactly one co-author line is composed (B's) and none for A;
and the collected co-author sets are invariant under commit order
(permutation) and under duplicated commits. -/
theorem merge_coauthor_collection :
    (∀ (la lb na ea nb eb s1 s2 s3 : String), la ≠ lb →
        mkCoauthorLine na ea ≠ mkCoauthorLine nb eb →
        (coauthorSets la [⟨s1, some la, na, ea⟩, ⟨s2, some lb, nb, eb⟩,
            ⟨s3, some la, na, ea⟩]).1 = {mkCoauthorLine nb eb} ∧
        mkCoauthorLine na ea ∉ (coauthorSets la [⟨s1, some la, na, ea⟩,
            ⟨s2, some lb, nb, eb⟩, ⟨s3, some la, na, ea⟩]).1) ∧
    (∀ (pa : String) (l l' : List CommitRec), l.Perm l' →
        coauthorSets pa l = coauthorSets pa l') ∧
    (∀ (pa : String) (c : CommitRec) (l : List CommitRec),
        coauthorSets pa (c :: c :: l) = coauthorSets pa (c :: l)) := by
  refine ⟨?_, ?_, ?_⟩
  · intro la lb na ea nb eb s1 s2 s3 hlab hne
    have hba : lb ≠ la := hlab.symm
    constructor
    · simp [coauthorSets, coauthorStep, hba]
    · simp [coauthorSets, coauthorStep, hba, Finset.mem_singleton, hne]
  · intro pa l l' hp
    rw [Prod.ext_iff]
    constructor
    · apply Finset.ext
      intro x
      rw [coauthorSets, coauthorSets, coauthor_foldl_mem_fst, coauthor_foldl_mem_fst]
      constructor
      · rintro (hx | ⟨c, hc, h⟩)
        · exact Or.inl hx
        · exact Or.inr ⟨c, hp.mem_iff.mp hc, h⟩
      · rintro (hx | ⟨c, hc, h⟩)
        · exact Or.inl hx
        · exact Or.inr ⟨c, hp.mem_iff.mpr hc, h⟩
    · apply Finset.ext
      intro x
      rw [coauthorSets, coauthorSets, coauthor_foldl_mem_snd, coauthor_foldl_mem_snd]
      constructor
      · rintro (hx | ⟨c, hc, h⟩)
        · exact Or.inl hx
        · exact Or.inr ⟨c, hp.mem_iff.mp hc, h⟩
      · rintro (hx | ⟨c, hc, h⟩)
        · exact Or.inl hx
        · exact Or.inr ⟨c, hp.mem_iff.mpr hc, h⟩
  · intro pa c l
    rw [Prod.ext_iff]
    constructor
    · apply Finset.ext
      intro x
      rw [coauthorSets, coauthorSets, coauthor_foldl_mem_fst, coauthor_foldl_mem_fst]
      simp only [List.mem_cons]
      constructor
      · rintro (hx | ⟨c', hc', h⟩)
        · exact Or.inl hx
        · rcases hc' with rfl | rfl | hc'
          · exact Or.inr ⟨c', Or.inl rfl, h⟩
          · exact Or.inr ⟨c', Or.inl rfl, h⟩
          · exact Or.inr ⟨c', Or.inr hc', h⟩
      · rintro (hx | ⟨c', hc', h⟩)
        · exact Or.inl hx
        · rcases hc' with rfl | hc'
          · exact Or.inr ⟨c', Or.inl rfl, h⟩
          · exact Or.inr ⟨c', Or.inr (Or.inr hc'), h⟩
    · apply Finset.ext
      intro x
      rw [coauthorSets, coauthorSets, coauthor_foldl_mem_snd, coauthor_foldl_mem_snd]
      simp only [List.mem_cons]
      constructor
      · rintro (hx | ⟨c', hc', h⟩)
        · exact Or.inl hx
        · rcases hc' with rfl | rfl | hc'
          · exact Or.inr ⟨c', Or.inl rfl, h⟩
          · exact Or.inr ⟨c', Or.inl rfl, h⟩
          · exact Or.inr ⟨c', Or.inr hc', h⟩
      · rintro (hx | ⟨c', hc', h⟩)
        · exact Or.inl hx
        · rcases hc' with rfl | hc'
          · exact Or.inr ⟨c', Or.inl rfl, h⟩
          · exact Or.inr ⟨c', Or.inr (Or.inr hc'), h⟩

/-- Claim C7, witness: concrete authors alice and bob, with permutation and
duplication instances. -/
theorem merge_coauthor_collection_witness :
    ((coauthorSets "alice" [⟨"s1", some "alice", "Alice", "a@x"⟩,
        ⟨"s2", some "bob", "Bob", "b@x"⟩, ⟨"s3", some "alice", "Alice", "a@x"⟩]).1 =
      {mkCoauthorLine "Bob" "b@x"} ∧
     mkCoauthorLine "Alice" "a@x" ∉ (coauthorSets "alice"
        [⟨"s1", some "alice", "Alice", "a@x"⟩, ⟨"s2", some "bob", "Bob", "b@x"⟩,
         ⟨"s3", some "alice", "Alice", "a@x"⟩]).1) ∧
    coauthorSets "alice" [⟨"s1", some "alice", "Alice", "a@x"⟩,
        ⟨"s2", some "bob", "Bob", "b@x"⟩] =
      coauthorSets "alice" [⟨"s2", some "bob", "Bob", "b@x"⟩,
        ⟨"s1", some "alice", "Alice", "a@x"⟩] ∧
    coauthorSets "alice" [⟨"s2", some "bob", "Bob", "b@x"⟩,
        ⟨"s2", some "bob", "Bob", "b@x"⟩] =
      coauthorSets "alice" [⟨"s2", some "bob", "Bob", "b@x"⟩] :=
  ⟨merge_coauthor_collection.1 "alice" "bob" "Alice" "a@x" "Bob" "b@x" "s1" "s2" "s3"
      (by decide) (by decide),
   merge_coauthor_collection.2.1 "alice" _ _ (by decide),
   merge_coauthor_collection.2.2 "alice" ⟨"s2", some "bob", "Bob", "b@x"⟩ []⟩

/-- Claim C10: every commit whose GitHub author association is absent
(null `commit['author']`, hence null login) is counted as a co-author via
its commit display name — for any pull-request author, including when the
commit was in fact authored by the pull request's own author — because the
null login always compares unequal to the author's login string. -/
theorem coauthor_null_login_counted (pa : String) (commits : List CommitRec)
    (c : CommitRec) (hmem : c ∈ commits) (hnull : c.authorLogin = none) :
    mkCoauthorLine c.name c.email ∈ (coauthorSets pa commits).1 ∧
    c.name ∈ (coauthorSets pa commits).2 := by
  constructor
  · rw [coauthorSets, coauthor_foldl_mem_fst]
    exact Or.inr ⟨c, hmem, by simp [hnull], rfl⟩
  · rw [coauthorSets, coauthor_foldl_mem_snd]
    exact Or.inr ⟨c, hmem, by simp [hnull], by simp [coauthorDisplay, hnull]⟩

/-- Claim C10, witness: a commit with a null author association whose
display name is the pull-request author's own name. -/
theorem coauthor_null_login_counted_witness :
    mkCoauthorLine commitC10.name commitC10.email ∈
      (coauthorSets "alice" [commitC10]).1 ∧
    commitC10.name ∈ (coauthorSets "alice" [commitC10]).2 :=
  coauthor_null_login_counted "alice" [commitC10] commitC10 (by decide) rfl
